import Mathlib

/-!
Shallow embedding of the weather-app aggregation core.

The embedded code lives in:
- `src/app/api/weather/route.ts` (two variants separated in the file): the
  aggregation orchestrator `GET`, `fetchForecast`, `fetchAlerts`;
- `src/unnamed/part_004` (a third variant of `app/api/weather/route.ts`):
  `GET` with point alerts, zone fallback and `addAlerts` dedup;
- `src/app/page.tsx`: `runSearch`, `resolveStateName`, `requestGeolocation`,
  `ipGeoGuess`, `fetchForecast`/`fetchAlerts` with AbortControllers;
- `src/lib/openWeather.ts`: the cached weather helper.

Modelling conventions: JS strings are `String`, JS numbers that the claims
only compare for presence/zero are `Int`, `null`/`undefined` is `Option`,
a thrown exception is an explicit error value, and the outcome of an
upstream `fetch` is passed in as an explicit event value so the functions
stay pure.
-/

set_option maxRecDepth 10000

/- ===================================================================
   Unit tokens (claim C7)
   =================================================================== -/

/-- Query parameters built by `fetchForecast` in `src/app/api/weather/route.ts`
(lines 51-70): all three unit tokens are derived from `unit`. -/
def routeForecastParams (lat lon unit : String) : List (String × String) :=
  [ ("latitude", lat),
    ("longitude", lon),
    ("timezone", "auto"),
    ("current", "temperature_2m,relative_humidity_2m,apparent_temperature,precipitation,wind_speed_10m,wind_gusts_10m,weather_code,uv_index"),
    ("hourly", "temperature_2m,precipitation_probability,weather_code,uv_index"),
    ("daily", "temperature_2m_max,temperature_2m_min,precipitation_sum,weather_code,uv_index_max"),
    ("forecast_days", "7"),
    ("temperature_unit", if unit = "imperial" then "fahrenheit" else "celsius"),
    ("wind_speed_unit", if unit = "imperial" then "mph" else "kmh"),
    ("precipitation_unit", if unit = "imperial" then "inch" else "mm") ]

/-- Query parameters set on `omUrl` by `GET` in `src/unnamed/part_004`
(lines 87-125): only the temperature and wind tokens are set; no
`precipitation_unit` parameter is ever attached. -/
def part004OmParams (lat lon unit : String) : List (String × String) :=
  [ ("latitude", lat),
    ("longitude", lon),
    ("timezone", "auto"),
    ("temperature_unit", if unit = "imperial" then "fahrenheit" else "celsius"),
    ("wind_speed_unit", if unit = "imperial" then "mph" else "kmh"),
    ("current", "temperature_2m,apparent_temperature,is_day,weather_code,uv_index,wind_speed_10m,wind_gusts_10m,relative_humidity_2m"),
    ("hourly", "temperature_2m,apparent_temperature,weather_code,uv_index,wind_speed_10m,wind_gusts_10m,relative_humidity_2m"),
    ("daily", "temperature_2m_max,temperature_2m_min,weather_code") ]

/- ===================================================================
   Current-conditions normalization (claim C8)
   =================================================================== -/

/-- Fields of the upstream Open-Meteo `current` object; every field may be
absent (`none`). Numeric values are modelled as `Int`. -/
structure OmCurrent where
  time : Option String
  temperature_2m : Option Int
  apparent_temperature : Option Int
  wind_speed_10m : Option Int
  wind_gusts_10m : Option Int
  weather_code : Option Int
  relative_humidity_2m : Option Int
  uv_index : Option Int
  is_day : Option Int
deriving DecidableEq, Repr

/-- The `CurrentBlock` assembled by `GET` in `src/unnamed/part_004`
(lines 153-163) and identically in the second variant of
`src/app/api/weather/route.ts` (lines 236-246). -/
structure CurrentBlock where
  time : Option String
  temperature_2m : Option Int
  apparent_temperature : Option Int
  wind_speed_10m : Option Int
  wind_gusts_10m : Option Int
  weather_code : Option Int
  relative_humidity_2m : Option Int
  uv_index : Option Int
  is_day : Option Int
deriving DecidableEq, Repr

/-- Embedding of the `current` construction: each field is
`omJson?.current?.field ?? null`, i.e. `none` when the upstream `current`
object or the field itself is absent. -/
def buildCurrent (omCurrent : Option OmCurrent) : CurrentBlock :=
  { time := Option.bind omCurrent OmCurrent.time,
    temperature_2m := Option.bind omCurrent OmCurrent.temperature_2m,
    apparent_temperature := Option.bind omCurrent OmCurrent.apparent_temperature,
    wind_speed_10m := Option.bind omCurrent OmCurrent.wind_speed_10m,
    wind_gusts_10m := Option.bind omCurrent OmCurrent.wind_gusts_10m,
    weather_code := Option.bind omCurrent OmCurrent.weather_code,
    relative_humidity_2m := Option.bind omCurrent OmCurrent.relative_humidity_2m,
    uv_index := Option.bind omCurrent OmCurrent.uv_index,
    is_day := Option.bind omCurrent OmCurrent.is_day }

/- ===================================================================
   Alert merge and dedup, src/unnamed/part_004 `addAlerts` (claim C3)
   =================================================================== -/

/-- The `properties` object of an NWS alert feature (the fields `addAlerts`
projects out). -/
structure NwsProps where
  event : Option String
  headline : Option String
  description : Option String
  instruction : Option String
  areaDesc : Option String
deriving DecidableEq, Repr

/-- An element of the upstream `features` array: the provider-assigned `id`
may be missing, as may the whole `properties` object. -/
structure NwsFeature where
  id : Option String
  properties : Option NwsProps
deriving DecidableEq, Repr

/-- Key of the `alertsSet` map. The code keys the map by strings, using
`crypto.randomUUID()` when `f?.id` is missing; a v4 UUID is fresh — distinct
from every provider id and every previously drawn UUID — so the model tags
synthesized keys with a counter value instead of a random string. -/
inductive AlertKey where
  | provider (id : String)
  | synthesized (n : Nat)
deriving DecidableEq, Repr

/-- Whether a key was synthesized by `crypto.randomUUID()` rather than
assigned by the provider. -/
def AlertKey.isSynthesized : AlertKey → Bool
  | .provider _ => false
  | .synthesized _ => true

/-- The `AlertItem` records the route returns. -/
structure AlertItem where
  id : AlertKey
  event : Option String
  headline : Option String
  description : Option String
  instruction : Option String
  areaDesc : Option String
deriving DecidableEq, Repr

/-- Value stored by `alertsSet.set(id, {...})` in `addAlerts`. -/
def mkAlertItem (key : AlertKey) (f : NwsFeature) : AlertItem :=
  { id := key,
    event := Option.bind f.properties NwsProps.event,
    headline := Option.bind f.properties NwsProps.headline,
    description := Option.bind f.properties NwsProps.description,
    instruction := Option.bind f.properties NwsProps.instruction,
    areaDesc := Option.bind f.properties NwsProps.areaDesc }

/-- The `alertsSet` map (insertion-ordered, as a JS `Map` is) plus the
supply counter for synthesized ids. -/
structure AlertState where
  entries : List (AlertKey × AlertItem)
  nextSynth : Nat
deriving DecidableEq, Repr

/-- Processing of one feature inside `addAlerts` (`src/unnamed/part_004`
lines 186-198): `const id = f?.id ?? crypto.randomUUID(); if
(!alertsSet.has(id)) alertsSet.set(id, {...})`. -/
def addOneAlert (st : AlertState) (f : NwsFeature) : AlertState :=
  match f.id with
  | some pid =>
      let key := AlertKey.provider pid
      if (st.entries.lookup key).isSome then st
      else { st with entries := st.entries ++ [(key, mkAlertItem key f)] }
  | none =>
      let key := AlertKey.synthesized st.nextSynth
      if (st.entries.lookup key).isSome then { st with nextSynth := st.nextSynth + 1 }
      else { entries := st.entries ++ [(key, mkAlertItem key f)],
             nextSynth := st.nextSynth + 1 }

/-- `addAlerts(features)`: `(features ?? []).forEach(...)`. -/
def addAlerts (st : AlertState) (features : Option (List NwsFeature)) : AlertState :=
  (features.getD []).foldl addOneAlert st

/-- Initial, empty `alertsSet`. -/
def emptyAlertState : AlertState := { entries := [], nextSynth := 0 }

/-- Merging a sequence of feature batches — the point query's batch followed
by one batch per zone query — through `addAlerts`. -/
def mergeAlertBatches (batches : List (Option (List NwsFeature))) : AlertState :=
  batches.foldl addAlerts emptyAlertState

/-- Number of entries held under a synthesized identifier. -/
def synthEntryCount (st : AlertState) : Nat :=
  (st.entries.filter (fun e => e.1.isSynthesized)).length

/-- Number of features across the batches whose provider id is missing. -/
def missingIdCount (batches : List (Option (List NwsFeature))) : Nat :=
  batches.foldl (fun n fs => n + ((fs.getD []).countP (fun f => f.id = none))) 0

/-- Well-formedness of the alert map: keys are distinct, and every
synthesized key already present was drawn below the supply counter. -/
def AlertState.wf (st : AlertState) : Prop :=
  (st.entries.map Prod.fst).Nodup ∧
  ∀ n, AlertKey.synthesized n ∈ st.entries.map Prod.fst → n < st.nextSynth

theorem lookup_isSome_iff_mem_keys {st : List (AlertKey × AlertItem)} {k : AlertKey} :
    (st.lookup k).isSome ↔ k ∈ st.map Prod.fst := by
  induction st with
  | nil => simp [List.lookup]
  | cons e rest ih =>
      rcases e with ⟨k', v⟩
      simp only [List.lookup, List.map_cons, List.mem_cons]
      by_cases h : k = k'
      · simp [h]
      · have hb : (k == k') = false := beq_eq_false_iff_ne.mpr h
        simp [hb, h, ih]

theorem nodup_keys_snoc {keys : List AlertKey} {k : AlertKey}
    (hnodup : keys.Nodup) (hnotin : k ∉ keys) : (keys ++ [k]).Nodup := by
  refine List.Nodup.append hnodup (List.nodup_singleton _) ?_
  intro a ha hb
  rw [List.mem_singleton] at hb
  subst hb
  exact hnotin ha

theorem addOneAlert_wf {st : AlertState} (f : NwsFeature) (hwf : st.wf) :
    (addOneAlert st f).wf ∧
    synthEntryCount (addOneAlert st f) =
      synthEntryCount st + (if f.id = none then 1 else 0) := by
  obtain ⟨hnodup, hsynth⟩ := hwf
  cases hf : f.id with
  | some pid =>
      simp only [addOneAlert, hf]
      by_cases hmem : (st.entries.lookup (AlertKey.provider pid)).isSome
      · simp only [hmem, reduceIte]
        exact ⟨⟨hnodup, hsynth⟩, by simp⟩
      · have hnotin : AlertKey.provider pid ∉ st.entries.map Prod.fst := by
          intro hc
          exact hmem (lookup_isSome_iff_mem_keys.mpr hc)
        simp only [hmem, reduceIte]
        refine ⟨⟨?_, ?_⟩, ?_⟩
        · show (List.map Prod.fst
            (st.entries ++ [(AlertKey.provider pid,
              mkAlertItem (AlertKey.provider pid) f)])).Nodup
          rw [List.map_append]
          exact nodup_keys_snoc hnodup hnotin
        · intro n hn
          replace hn : AlertKey.synthesized n ∈ List.map Prod.fst
              (st.entries ++ [(AlertKey.provider pid,
                mkAlertItem (AlertKey.provider pid) f)]) := hn
          rw [List.map_append, List.mem_append] at hn
          rcases hn with hn | hn
          · exact hsynth n hn
          · exact absurd hn (by simp)
        · show synthEntryCount (AlertState.mk (st.entries ++
              [(AlertKey.provider pid, mkAlertItem (AlertKey.provider pid) f)])
              st.nextSynth) =
            synthEntryCount st + 0
          simp [synthEntryCount, AlertKey.isSynthesized, List.filter_append]
  | none =>
      have hfresh : (st.entries.lookup (AlertKey.synthesized st.nextSynth)).isSome = false := by
        by_contra hc
        rw [Bool.not_eq_false] at hc
        have hmem := lookup_isSome_iff_mem_keys.mp hc
        exact absurd (hsynth st.nextSynth hmem) (lt_irrefl _)
      simp only [addOneAlert, hf, hfresh, Bool.false_eq_true, reduceIte]
      refine ⟨⟨?_, ?_⟩, ?_⟩
      · have hnotin : AlertKey.synthesized st.nextSynth ∉ st.entries.map Prod.fst := by
          intro hc
          exact absurd (hsynth st.nextSynth hc) (lt_irrefl _)
        show (List.map Prod.fst
          (st.entries ++ [(AlertKey.synthesized st.nextSynth,
            mkAlertItem (AlertKey.synthesized st.nextSynth) f)])).Nodup
        rw [List.map_append]
        exact nodup_keys_snoc hnodup hnotin
      · intro n hn
        replace hn : AlertKey.synthesized n ∈ List.map Prod.fst
            (st.entries ++ [(AlertKey.synthesized st.nextSynth,
              mkAlertItem (AlertKey.synthesized st.nextSynth) f)]) := hn
        rw [List.map_append, List.mem_append] at hn
        rcases hn with hn | hn
        · exact Nat.lt_succ_of_lt (hsynth n hn)
        · have : n = st.nextSynth := by simpa using hn
          show n < st.nextSynth + 1
          simp [this]
      · show synthEntryCount (AlertState.mk (st.entries ++
            [(AlertKey.synthesized st.nextSynth,
              mkAlertItem (AlertKey.synthesized st.nextSynth) f)]) (st.nextSynth + 1)) =
          synthEntryCount st + 1
        simp [synthEntryCount, AlertKey.isSynthesized, List.filter_append]

theorem addAlerts_wf {st : AlertState} (fs : Option (List NwsFeature)) (hwf : st.wf) :
    (addAlerts st fs).wf ∧
    synthEntryCount (addAlerts st fs) =
      synthEntryCount st + (fs.getD []).countP (fun f => f.id = none) := by
  rw [addAlerts]
  induction fs.getD [] generalizing st with
  | nil => simpa using hwf
  | cons f rest ih =>
      obtain ⟨hwf1, hcount1⟩ := addOneAlert_wf f hwf
      obtain ⟨hwf2, hcount2⟩ := ih hwf1
      refine ⟨hwf2, ?_⟩
      rw [List.foldl_cons, hcount2, hcount1, List.countP_cons]
      by_cases h : f.id = none
      · simp only [h, decide_True, reduceIte]
        omega
      · simp only [h, decide_False, Bool.false_eq_true, reduceIte]
        omega

/-- C3: across any combination of point-path and zone-path batches, the
merged alert map holds no two entries under the same provider-assigned
(non-synthesized) identifier — its keys are pairwise distinct — and every
feature that arrived without an identifier is retained under a freshly
synthesized identifier (one synthesized entry per missing-id feature). -/
theorem merged_alerts_dedup_and_keep (batches : List (Option (List NwsFeature))) :
    ((mergeAlertBatches batches).entries.map Prod.fst).Nodup ∧
    synthEntryCount (mergeAlertBatches batches) = missingIdCount batches := by
  rw [mergeAlertBatches, missingIdCount]
  have hinit : emptyAlertState.wf := by
    constructor
    · simp [emptyAlertState]
    · intro n hn
      simp [emptyAlertState] at hn
  have key : ∀ (bs : List (Option (List NwsFeature))) (st : AlertState), st.wf →
      (bs.foldl addAlerts st).wf ∧
      synthEntryCount (bs.foldl addAlerts st) =
        synthEntryCount st + bs.foldl (fun n fs => n + ((fs.getD []).countP (fun f => f.id = none))) 0 := by
    intro bs
    induction bs with
    | nil => intro st hst; simpa using hst
    | cons b rest ih =>
        intro st hst
        obtain ⟨hwf1, hcount1⟩ := addAlerts_wf b hst
        obtain ⟨hwf2, hcount2⟩ := ih _ hwf1
        refine ⟨hwf2, ?_⟩
        rw [List.foldl_cons, hcount2, hcount1]
        have hshift : ∀ (l : List (Option (List NwsFeature))) (a c : Nat),
            l.foldl (fun n fs => n + ((fs.getD []).countP (fun f => f.id = none))) (a + c) =
            a + l.foldl (fun n fs => n + ((fs.getD []).countP (fun f => f.id = none))) c := by
          intro l
          induction l with
          | nil => intro a c; simp
          | cons x xs ihx =>
              intro a c
              simp only [List.foldl_cons]
              rw [Nat.add_assoc, ihx]
        conv_rhs => rw [List.foldl_cons]
        have h1 := hshift rest ((b.getD []).countP (fun f => f.id = none)) 0
        rw [Nat.add_zero] at h1
        rw [Nat.zero_add, h1]
        omega
  obtain ⟨hwf, hcount⟩ := key batches emptyAlertState hinit
  refine ⟨hwf.1, ?_⟩
  rw [hcount]
  simp [synthEntryCount, emptyAlertState]

/- ===================================================================
   Claim theorems for C7 and C8
   =================================================================== -/

/-- C7 counterexample: the claim says every upstream forecast call for an
imperial request carries `precipitation_unit=inch`, but the `part_004`
variant of the route issues its Open-Meteo call without any
`precipitation_unit` parameter at all. -/
theorem part004_imperial_no_precipitation_unit :
    (part004OmParams "34.7304" "-86.5861" "imperial").lookup "precipitation_unit" = none :=
  rfl

/-- C7 (amended): every unit token a forecast call sets is derived from the
single `unit` value of the request, and no call mixes unit systems; the
primary route sets all three tokens (imperial gives fahrenheit/mph/inch,
otherwise celsius/kmh/mm), while the `part_004` variant sets only the
temperature and wind tokens, derived the same way, and never sets a
precipitation token. -/
theorem unit_tokens_consistent (lat lon unit : String) :
    (routeForecastParams lat lon unit).lookup "temperature_unit" =
      some (if unit = "imperial" then "fahrenheit" else "celsius") ∧
    (routeForecastParams lat lon unit).lookup "wind_speed_unit" =
      some (if unit = "imperial" then "mph" else "kmh") ∧
    (routeForecastParams lat lon unit).lookup "precipitation_unit" =
      some (if unit = "imperial" then "inch" else "mm") ∧
    (part004OmParams lat lon unit).lookup "temperature_unit" =
      some (if unit = "imperial" then "fahrenheit" else "celsius") ∧
    (part004OmParams lat lon unit).lookup "wind_speed_unit" =
      some (if unit = "imperial" then "mph" else "kmh") ∧
    (part004OmParams lat lon unit).lookup "precipitation_unit" = none :=
  ⟨rfl, rfl, rfl, rfl, rfl, rfl⟩

/-- C8: absent upstream fields surface as `null` in the Current Conditions
block — an absent humidity is `none`, never the number `0` — and fields the
upstream does provide (time, temperature) are passed through present. -/
theorem current_absent_is_null (c : OmCurrent) (t : String) (v : Int)
    (hhum : c.relative_humidity_2m = none)
    (htime : c.time = some t)
    (htemp : c.temperature_2m = some v) :
    (buildCurrent (some c)).relative_humidity_2m = none ∧
    (buildCurrent (some c)).relative_humidity_2m ≠ some 0 ∧
    (buildCurrent (some c)).time = some t ∧
    (buildCurrent (some c)).temperature_2m = some v := by
  refine ⟨?_, ?_, ?_, ?_⟩ <;>
    simp [buildCurrent, hhum, htime, htemp]

/-- C8 witness: a concrete upstream current block with humidity absent. -/
theorem current_absent_is_null_witness :
    (buildCurrent (some ⟨some "2025-10-12T12:00", some 72, some 70, some 5, some 9,
        some 1, none, some 4, some 1⟩)).relative_humidity_2m = none ∧
    (buildCurrent (some ⟨some "2025-10-12T12:00", some 72, some 70, some 5, some 9,
        some 1, none, some 4, some 1⟩)).relative_humidity_2m ≠ some 0 ∧
    (buildCurrent (some ⟨some "2025-10-12T12:00", some 72, some 70, some 5, some 9,
        some 1, none, some 4, some 1⟩)).time = some "2025-10-12T12:00" ∧
    (buildCurrent (some ⟨some "2025-10-12T12:00", some 72, some 70, some 5, some 9,
        some 1, none, some 4, some 1⟩)).temperature_2m = some 72 :=
  current_absent_is_null _ _ _ rfl rfl rfl

/- ===================================================================
   Aggregation orchestrator, src/app/api/weather/route.ts (claim C1)
   =================================================================== -/

/-- Error value a JS exception carries; the route code only branches on
whether `error.name === "AbortError"` (the 5s `AbortSignal.timeout`). -/
inductive JsError where
  | abortError
  | otherError (msg : String)
deriving DecidableEq, Repr

/-- Outcome of one upstream `fetch` plus body parsing, passed in as a value:
either a settled HTTP response (with `ok` status flag and parsed body), or a
thrown exception (network failure, timeout, parse failure). -/
inductive FetchEv (α : Type) where
  | resp (ok : Bool) (body : α)
  | raise (e : JsError)
deriving DecidableEq, Repr

/-- The `validUnits` list of `src/app/api/weather/route.ts` line 4. -/
def routeValidUnits : List String := ["imperial", "metric", "standard"]

/-- Embedding of `fetchAlerts` (`src/app/api/weather/route.ts` lines
83-109): a non-ok status returns `[]`; a thrown `AbortError` is rethrown;
any other exception returns `[]`; an ok response maps `features` to their
`properties` (or `[]` when `features` is not an array). -/
def routeFetchAlerts (ev : FetchEv (Option (List NwsFeature))) :
    Except JsError (List (Option NwsProps)) :=
  match ev with
  | .raise e => if e = .abortError then .error e else .ok []
  | .resp false _ => .ok []
  | .resp true body =>
      match body with
      | some features => .ok (features.map NwsFeature.properties)
      | none => .ok []

/-- The forecast JSON body returned by `fetchForecast` on success; the
claims only inspect the `current` object, so the remaining subtrees are
not represented. -/
structure OmBody where
  current : Option OmCurrent
deriving DecidableEq, Repr

/-- Embedding of `fetchForecast` (`src/app/api/weather/route.ts` lines
51-80): a non-ok status throws `Error("Failed to fetch forecast data from
Open-Meteo")`; a thrown exception propagates; otherwise the parsed body is
returned. -/
def routeFetchForecast (ev : FetchEv OmBody) : Except JsError OmBody :=
  match ev with
  | .raise e => .error e
  | .resp false _ => .error (.otherError "Failed to fetch forecast data from Open-Meteo")
  | .resp true body => .ok body

/-- Responses the route can produce. `success` is the 200 payload
`{...forecastResponse, alerts}`; `failure` is an error JSON with its HTTP
status. -/
inductive RouteResponse where
  | success (forecast : OmBody) (alerts : List (Option NwsProps))
  | failure (status : Nat) (error : String)
deriving DecidableEq, Repr

/-- The `unit` query parameter: `searchParams.get("unit") || "imperial"`
(absent or empty falls back to imperial). -/
def routeUnitOf (unitQ : Option String) : String :=
  match unitQ with
  | some u => if u = "" then "imperial" else u
  | none => "imperial"

/-- Embedding of `GET` (`src/app/api/weather/route.ts` lines 7-48).
`Promise.all` rejects with the first rejection; when both helpers reject
the settled error is timing-dependent, modelled here as the forecast's
error taking precedence (the claims never exercise the double-failure
case). The catch handler returns 504 for an `AbortError` and 500
otherwise. -/
def routeGET (lat lon : Option String) (unitQ : Option String)
    (fEv : FetchEv OmBody) (aEv : FetchEv (Option (List NwsFeature))) : RouteResponse :=
  let unit := routeUnitOf unitQ
  if unit ∉ routeValidUnits then .failure 400 "Invalid unit"
  else if lat.getD "" = "" ∨ lon.getD "" = "" then
    .failure 400 "Latitude and longitude are required"
  else
    match routeFetchForecast fEv with
    | .error e =>
        if e = .abortError then .failure 504 "Upstream request timed out"
        else .failure 500 "Failed to fetch weather data"
    | .ok forecast =>
        match routeFetchAlerts aEv with
        | .error e =>
            if e = .abortError then .failure 504 "Upstream request timed out"
            else .failure 500 "Failed to fetch weather data"
        | .ok alerts => .success forecast alerts

/-- Alert list that `fetchAlerts` yields when it does not throw. -/
def routeAlertsOf (aEv : FetchEv (Option (List NwsFeature))) : List (Option NwsProps) :=
  match routeFetchAlerts aEv with
  | .ok alerts => alerts
  | .error _ => []

/- ===================================================================
   Point/zone alert fallback, src/unnamed/part_004 (claims C1, C2)
   =================================================================== -/

/-- A settled NWS response as `part_004` consumes it: `ok`/`status`, and
the parsed `features` array (`none` when `json()` failed to parse or the
body had no `features` array — both ways `addAlerts` receives nothing).
`fetchWithRetry` returning `null` after exhausted retries is modelled by
`Option NwsResp` at the call sites. -/
structure NwsResp where
  ok : Bool
  status : Nat
  features : Option (List NwsFeature)
deriving DecidableEq, Repr

/-- The `properties` of the NWS points-metadata response: the three zone
URLs that the zone fallback reads. -/
structure PointsProps where
  forecastZone : Option String
  county : Option String
  fireWeatherZone : Option String
deriving DecidableEq, Repr

/-- A settled points-metadata response. `body = none` models `json()`
throwing (the surrounding `try` ignores it and skips the fallback);
`body = some none` models a parsed body without `properties` (the code
substitutes `{}`, yielding no zone URLs). -/
structure PointsResp where
  ok : Bool
  body : Option (Option PointsProps)
deriving DecidableEq, Repr

/-- `url.split("/").pop()`: the last `/`-separated segment. -/
def lastSegment (url : String) : String :=
  (url.splitOn "/").getLastD ""

/-- Zone identifiers extracted in the fallback (`src/unnamed/part_004`
lines 225-232): collect the three zone URLs that are present and non-empty
(`filter(Boolean)`), take each URL's last path segment, and drop empty
segments (`filter(Boolean)` again). -/
def zoneIdsOf (p : PointsProps) : List String :=
  let zoneUrls := ([p.forecastZone, p.county, p.fireWeatherZone].filterMap id).filter
    (fun s => s ≠ "")
  (zoneUrls.map lastSegment).filter (fun s => s ≠ "")

/-- Zone identifiers the fallback will query, or `none` when zone metadata
resolution failed (no response after retries, non-ok status, or unparsable
body). This is the guard-plus-extraction of lines 220-232. -/
def metaZoneIds (pointsRes : Option PointsResp) : Option (List String) :=
  match pointsRes with
  | none => none
  | some p =>
      if p.ok then
        match p.body with
        | none => none
        | some none => some []
        | some (some props) => some (zoneIdsOf props)
      else none

/-- The point phase (`src/unnamed/part_004` lines 201-216): parse the point
alert response when there is one — the code calls `json()` whether or not
the status was ok — and feed its features to `addAlerts`. -/
def part004PointPhase (pointRes : Option NwsResp) : AlertState :=
  match pointRes with
  | some r => addAlerts emptyAlertState r.features
  | none => emptyAlertState

/-- The per-zone loop (`src/unnamed/part_004` lines 243-257): for each zone
response in order, an ok response records the zone in `zonesUsed` and adds
its features; a missing or non-ok response is skipped. -/
def part004ZoneLoop : List (String × Option NwsResp) → AlertState → List String →
    AlertState × List String
  | [], st, used => (st, used)
  | (zid, zr) :: rest, st, used =>
      match zr with
      | some r =>
          if r.ok then part004ZoneLoop rest (addAlerts st r.features) (used ++ [zid])
          else part004ZoneLoop rest st used
      | none => part004ZoneLoop rest st used

/-- Result of the alert-building portion of `part_004`'s `GET`: the final
alert list, the zone ids a fallback query was issued for, the `zonesUsed`
diagnostic, and the point query's diagnostic fields. -/
structure Part004AlertsOut where
  alerts : List AlertItem
  zonesQueried : List String
  zonesUsed : List String
  pointOk : Bool
  pointStatus : Nat
deriving DecidableEq, Repr

/-- Embedding of the alert assembly in `part_004`'s `GET` (lines 183-268):
point phase first; then, only when the set is still empty and the points
metadata resolved, one active-alerts query per extracted zone identifier
(issued as a parallel batch from the same state), merged through the same
`addAlerts`. -/
def part004BuildAlerts (pointRes : Option NwsResp) (pointsRes : Option PointsResp)
    (zoneRes : String → Option NwsResp) : Part004AlertsOut :=
  let st1 := part004PointPhase pointRes
  let pointOk := match pointRes with | some r => r.ok | none => false
  let pointStatus := match pointRes with | some r => r.status | none => 0
  if st1.entries.length = 0 then
    match metaZoneIds pointsRes with
    | some zoneIds =>
        let zoneResponses := zoneIds.map (fun zid => (zid, zoneRes zid))
        let zl := part004ZoneLoop zoneResponses st1 []
        { alerts := zl.1.entries.map Prod.snd,
          zonesQueried := zoneIds,
          zonesUsed := zl.2,
          pointOk := pointOk,
          pointStatus := pointStatus }
    | none =>
        { alerts := st1.entries.map Prod.snd,
          zonesQueried := [],
          zonesUsed := [],
          pointOk := pointOk,
          pointStatus := pointStatus }
  else
    { alerts := st1.entries.map Prod.snd,
      zonesQueried := [],
      zonesUsed := [],
      pointOk := pointOk,
      pointStatus := pointStatus }

/-- Responses of `part_004`'s `GET`: success carries the normalized current
block and the merged alert list (hourly/daily pass-through elided — no
claim mentions them); failure carries the HTTP status. -/
inductive Part004Response where
  | success (current : CurrentBlock) (alerts : List AlertItem)
  | failure (status : Nat) (error : String)
deriving DecidableEq, Repr

/-- Embedding of `part_004`'s `GET` (lines 77-281). `latLonFinite` stands
for `Number.isFinite(lat) && Number.isFinite(lon)`. A missing or non-ok
Open-Meteo response throws, and the catch handler returns 500; alert-path
outcomes can never throw. -/
def part004GET (latLonFinite : Bool) (omEv : FetchEv OmBody)
    (pointRes : Option NwsResp) (pointsRes : Option PointsResp)
    (zoneRes : String → Option NwsResp) : Part004Response :=
  if !latLonFinite then .failure 400 "lat/lon required"
  else
    match omEv with
    | .raise _ => .failure 500 "Failed to fetch forecast data from Open-Meteo"
    | .resp false _ => .failure 500 "Failed to fetch forecast data from Open-Meteo"
    | .resp true om =>
        .success (buildCurrent om.current)
          (part004BuildAlerts pointRes pointsRes zoneRes).alerts

/- ===================================================================
   Claim theorems for C1 and C2
   =================================================================== -/

theorem routeFetchAlerts_ok (aEv : FetchEv (Option (List NwsFeature)))
    (h : aEv ≠ FetchEv.raise JsError.abortError) :
    routeFetchAlerts aEv = .ok (routeAlertsOf aEv) := by
  cases aEv with
  | raise e =>
      have he : e ≠ JsError.abortError := by
        intro hc
        exact h (by rw [hc])
      simp [routeFetchAlerts, routeAlertsOf, he]
  | resp ok body =>
      cases ok <;> cases body <;> simp [routeFetchAlerts, routeAlertsOf]

/-- C1 counterexample: with valid inputs and a healthy forecast upstream, an
alert fetch that dies on its 5-second timeout (`AbortError`) is rethrown by
`fetchAlerts` and turned into a 504 failure of the whole request — the claim
says an alert-path timeout must never fail the Aggregated Weather Response. -/
theorem alert_timeout_fails_request :
    routeGET (some "34.7304") (some "-86.5861") (some "imperial")
      (FetchEv.resp true { current := none })
      (FetchEv.raise JsError.abortError) =
    RouteResponse.failure 504 "Upstream request timed out" := rfl

/-- C1 (amended): in the primary route a network error, parse failure, or
non-success HTTP status in the alert-fetch path never fails the Aggregated
Weather Response — the request succeeds with the forecast intact and the
degraded (possibly empty) alert list — but an alert-path timeout
(`AbortError`) is rethrown and fails the request with 504; in the
`part_004` variant every alert-path outcome, timeouts and retry exhaustion
included, leaves the response a success with the forecast intact. -/
theorem alert_failures_absorbed (lat lon : String) (unitQ : Option String)
    (fj : OmBody) (aEv : FetchEv (Option (List NwsFeature)))
    (pointRes : Option NwsResp) (pointsRes : Option PointsResp)
    (zoneRes : String → Option NwsResp)
    (hunit : routeUnitOf unitQ ∈ routeValidUnits)
    (hlat : lat ≠ "") (hlon : lon ≠ "")
    (haEv : aEv ≠ FetchEv.raise JsError.abortError) :
    routeGET (some lat) (some lon) unitQ (FetchEv.resp true fj) aEv =
      RouteResponse.success fj (routeAlertsOf aEv) ∧
    part004GET true (FetchEv.resp true fj) pointRes pointsRes zoneRes =
      Part004Response.success (buildCurrent fj.current)
        (part004BuildAlerts pointRes pointsRes zoneRes).alerts := by
  constructor
  · simp [routeGET, routeFetchForecast, routeFetchAlerts_ok aEv haEv, hunit, hlat, hlon]
  · rfl

/-- C1 witness: a 502 from the alert provider; both route variants still
return the forecast payload successfully. -/
theorem alert_failures_absorbed_witness :
    routeGET (some "34.7304") (some "-86.5861") (some "imperial")
      (FetchEv.resp true { current := none }) (FetchEv.resp false none) =
      RouteResponse.success { current := none } (routeAlertsOf (FetchEv.resp false none)) ∧
    part004GET true (FetchEv.resp true { current := none }) none none (fun _ => none) =
      Part004Response.success (buildCurrent none)
        (part004BuildAlerts none none (fun _ => none)).alerts :=
  alert_failures_absorbed "34.7304" "-86.5861" (some "imperial") { current := none }
    (FetchEv.resp false none) none none (fun _ => none)
    (by decide) (by decide) (by decide) (by decide)

/-- C2: when the point path contributes zero alert records, the fallback
issues one active-alerts query per zone identifier extracted from the
points metadata (and nothing else); when zone metadata resolution itself
fails, no zone query is issued and the empty alert list is the returned,
degraded-but-valid outcome. -/
theorem zone_fallback_attempted (pointRes : Option NwsResp) (pointsRes : Option PointsResp)
    (zoneRes : String → Option NwsResp)
    (hempty : (part004PointPhase pointRes).entries = []) :
    (part004BuildAlerts pointRes pointsRes zoneRes).zonesQueried =
      (metaZoneIds pointsRes).getD [] ∧
    (metaZoneIds pointsRes = none →
      (part004BuildAlerts pointRes pointsRes zoneRes).alerts = []) := by
  have h0 : (part004PointPhase pointRes).entries.length = 0 := by
    rw [hempty]
    rfl
  cases hmeta : metaZoneIds pointsRes with
  | some ids =>
      constructor
      · simp [part004BuildAlerts, h0, hmeta]
      · intro hc
        exact absurd hc (by simp)
  | none =>
      constructor
      · simp [part004BuildAlerts, h0, hmeta]
      · intro _
        simp [part004BuildAlerts, h0, hmeta, hempty]

/-- C2 witness: point query found after retries but empty; points metadata
resolves to a forecast zone and a county, so exactly those two zone queries
are issued. -/
theorem zone_fallback_attempted_witness :
    (part004BuildAlerts (some ⟨true, 200, some []⟩)
        (some ⟨true, some (some ⟨some "https://api.weather.gov/zones/forecast/ALZ001",
          some "https://api.weather.gov/zones/county/ALC089", none⟩)⟩)
        (fun _ => none)).zonesQueried =
      (metaZoneIds (some ⟨true, some (some ⟨some "https://api.weather.gov/zones/forecast/ALZ001",
        some "https://api.weather.gov/zones/county/ALC089", none⟩)⟩)).getD [] ∧
    (metaZoneIds (some ⟨true, some (some ⟨some "https://api.weather.gov/zones/forecast/ALZ001",
        some "https://api.weather.gov/zones/county/ALC089", none⟩)⟩) = none →
      (part004BuildAlerts (some ⟨true, 200, some []⟩)
        (some ⟨true, some (some ⟨some "https://api.weather.gov/zones/forecast/ALZ001",
          some "https://api.weather.gov/zones/county/ALC089", none⟩)⟩)
        (fun _ => none)).alerts = []) :=
  zone_fallback_attempted _ _ _ rfl

/- ===================================================================
   Fetch cancellation, src/app/page.tsx fetchForecast/fetchAlerts
   (claim C4)
   =================================================================== -/

/-- Events of the abort-controller protocol used by `fetchForecast`
(`src/app/page.tsx` lines 682-758) and `fetchAlerts` (lines 760-804):
`issue` is a new invocation — it calls `ctrl.current?.abort()` on the
previous controller and installs a fresh one — and `resolve t d` is the
completion of the async body for the request issued with the `t`-th
controller. An aborted controller makes that request's pending `fetch` or
`json()` reject, so its completion never writes state: the catch block only
clears the loading flags. -/
inductive FetchEvent (α : Type) where
  | issue
  | resolve (token : Nat) (d : α)
deriving DecidableEq, Repr

/-- Client state: the token of the currently installed controller
(`0` before the first invocation), the tokens whose controllers were
aborted, and the React state last written by a completed fetch, tagged
with the token of the request that wrote it. -/
structure ClientState (α : Type) where
  latest : Nat
  aborted : List Nat
  shown : Option (Nat × α)
deriving DecidableEq, Repr

/-- One protocol step. `issue` aborts the previous controller (when one
exists) and installs the next; `resolve` writes the fetched data unless the
request's controller was aborted, in which case the rejection is swallowed
and no data state is written. -/
def stepEvent {α : Type} (s : ClientState α) : FetchEvent α → ClientState α
  | .issue =>
      { latest := s.latest + 1,
        aborted := if s.latest = 0 then s.aborted else s.latest :: s.aborted,
        shown := s.shown }
  | .resolve t d =>
      if t ∈ s.aborted then s else { s with shown := some (t, d) }

/-- Run a trace of events. -/
def runEvents {α : Type} (s : ClientState α) (evs : List (FetchEvent α)) : ClientState α :=
  evs.foldl stepEvent s

/-- State before any fetch was issued. -/
def initClientState {α : Type} : ClientState α := { latest := 0, aborted := [], shown := none }

/-- A trace is valid when every resolution belongs to a request that was
actually issued: its token is positive and not beyond the controller
installed at that time (`k` counts issues so far). -/
def validFrom {α : Type} : Nat → List (FetchEvent α) → Bool
  | _, [] => true
  | k, .issue :: rest => validFrom (k + 1) rest
  | k, .resolve t _ :: rest => decide (1 ≤ t) && decide (t ≤ k) && validFrom k rest

/-- Invariant of reachable states: every issued-but-superseded token is
aborted, and aborted tokens are strictly older than the installed one. -/
def ClientInv {α : Type} (s : ClientState α) : Prop :=
  (∀ t, 1 ≤ t → t < s.latest → t ∈ s.aborted) ∧ (∀ x ∈ s.aborted, x < s.latest)

theorem stepEvent_inv {α : Type} (s : ClientState α) (ev : FetchEvent α)
    (hinv : ClientInv s) : ClientInv (stepEvent s ev) := by
  obtain ⟨h1, h2⟩ := hinv
  cases ev with
  | issue =>
      constructor
      · intro t ht1 ht2
        show t ∈ if s.latest = 0 then s.aborted else s.latest :: s.aborted
        by_cases h0 : s.latest = 0
        · rw [if_pos h0]
          have : t < s.latest := by
            have hlt : t < s.latest + 1 := ht2
            rcases Nat.lt_succ_iff_lt_or_eq.mp hlt with h | h
            · exact h
            · rw [h0] at h
              omega
          exact h1 t ht1 this
        · rw [if_neg h0]
          have hlt : t < s.latest + 1 := ht2
          rcases Nat.lt_succ_iff_lt_or_eq.mp hlt with h | h
          · exact List.mem_cons_of_mem _ (h1 t ht1 h)
          · rw [h]
            exact List.mem_cons_self _ _
      · intro x hx
        replace hx : x ∈ (if s.latest = 0 then s.aborted else s.latest :: s.aborted) := hx
        show x < s.latest + 1
        by_cases h0 : s.latest = 0
        · rw [if_pos h0] at hx
          exact Nat.lt_succ_of_lt (h2 x hx)
        · rw [if_neg h0] at hx
          rcases List.mem_cons.mp hx with h | h
          · rw [h]
            exact Nat.lt_succ_self _
          · exact Nat.lt_succ_of_lt (h2 x h)
  | resolve t d =>
      by_cases hmem : t ∈ s.aborted
      · simpa [stepEvent, hmem] using ⟨h1, h2⟩
      · simpa [stepEvent, hmem] using ⟨h1, h2⟩

theorem runEvents_inv {α : Type} (evs : List (FetchEvent α)) (s : ClientState α)
    (hinv : ClientInv s) : ClientInv (runEvents s evs) := by
  induction evs generalizing s with
  | nil => exact hinv
  | cons ev rest ih => exact ih _ (stepEvent_inv s ev hinv)

/-- C4: after any valid sequence of fetch issues and resolutions, a
late-arriving resolution of a superseded request (token older than the
currently installed controller) is discarded — the state, the shown
response included, is unchanged — while the most recently issued request's
own resolution does update the shown response; so the response ultimately
shown always corresponds to the most recently issued request, and stale
results never overwrite fresh state. -/
theorem last_request_wins {α : Type} (evs : List (FetchEvent α)) (t : Nat)
    (dStale dFresh : α)
    (hvalid : validFrom 0 evs = true)
    (ht1 : 1 ≤ t)
    (ht2 : t < (runEvents (initClientState (α := α)) evs).latest) :
    runEvents initClientState (evs ++ [FetchEvent.resolve t dStale]) =
      runEvents (initClientState (α := α)) evs ∧
    (runEvents initClientState
        (evs ++ [FetchEvent.resolve t dStale,
                 FetchEvent.resolve (runEvents (initClientState (α := α)) evs).latest dFresh])).shown =
      some ((runEvents (initClientState (α := α)) evs).latest, dFresh) := by
  have hinv : ClientInv (runEvents (initClientState (α := α)) evs) :=
    runEvents_inv evs initClientState (by constructor <;> simp [initClientState])
  obtain ⟨h1, h2⟩ := hinv
  set s := runEvents (initClientState (α := α)) evs with hs
  have hstale : stepEvent s (FetchEvent.resolve t dStale) = s := by
    have hmem : t ∈ s.aborted := h1 t ht1 ht2
    simp [stepEvent, hmem]
  have happ1 : runEvents initClientState (evs ++ [FetchEvent.resolve t dStale]) = s := by
    rw [runEvents, List.foldl_append]
    show stepEvent s (FetchEvent.resolve t dStale) = s
    exact hstale
  refine ⟨happ1, ?_⟩
  have hfreshnotaborted : s.latest ∉ s.aborted := by
    intro hc
    exact absurd (h2 s.latest hc) (lt_irrefl _)
  have happ2 : runEvents initClientState
      (evs ++ [FetchEvent.resolve t dStale, FetchEvent.resolve s.latest dFresh]) =
      stepEvent (stepEvent s (FetchEvent.resolve t dStale)) (FetchEvent.resolve s.latest dFresh) := by
    rw [runEvents, List.foldl_append]
    rfl
  rw [happ2, hstale]
  simp [stepEvent, hfreshnotaborted]

/-- C4 witness: two rapid place changes (requests 1 then 2) before the
first resolves; request 1's late resolution is discarded and the shown
response is request 2's. -/
theorem last_request_wins_witness :
    (validFrom 0 [FetchEvent.issue, FetchEvent.issue (α := String)] = true ∧
     1 ≤ 1 ∧
     1 < (runEvents (initClientState (α := String))
        [FetchEvent.issue, FetchEvent.issue]).latest) ∧
    runEvents initClientState
        ([FetchEvent.issue, FetchEvent.issue] ++ [FetchEvent.resolve 1 "placeA"]) =
      runEvents (initClientState (α := String)) [FetchEvent.issue, FetchEvent.issue] ∧
    (runEvents initClientState
        ([FetchEvent.issue, FetchEvent.issue] ++
         [FetchEvent.resolve 1 "placeA",
          FetchEvent.resolve (runEvents (initClientState (α := String))
            [FetchEvent.issue, FetchEvent.issue]).latest "placeB"])).shown =
      some ((runEvents (initClientState (α := String))
        [FetchEvent.issue, FetchEvent.issue]).latest, "placeB") :=
  ⟨⟨by decide, by decide, by decide⟩,
    last_request_wins [FetchEvent.issue, FetchEvent.issue] 1 "placeA" "placeB"
      (by decide) (by decide) (by decide)⟩

/- ===================================================================
   Location acquisition, src/app/page.tsx requestGeolocation (claim C5)
   =================================================================== -/

/-- The `PositionOptions` passed to `getCurrentPosition`. -/
structure PosOptions where
  enableHighAccuracy : Bool
  timeoutMs : Nat
  maximumAge : Nat
deriving DecidableEq, Repr

/-- First attempt's configuration (`src/app/page.tsx` line 662):
low accuracy, 10s timeout, 5-minute cached positions allowed. -/
def firstOpts : PosOptions := { enableHighAccuracy := false, timeoutMs := 10000, maximumAge := 300000 }

/-- Retry configuration (line 663): high accuracy, 20s timeout, no cache. -/
def secondOpts : PosOptions := { enableHighAccuracy := true, timeoutMs := 20000, maximumAge := 0 }

/-- `GeolocationPositionError.code` values the handler branches on. -/
inductive GeoErrCode where
  | permissionDenied
  | positionUnavailable
  | timedOut
deriving DecidableEq, Repr

/-- Outcome of one `getCurrentPosition` attempt. -/
inductive GeoAttempt where
  | success (lat lon : Int)
  | failure (code : GeoErrCode)
deriving DecidableEq, Repr

/-- Whether an attempt succeeded. -/
def GeoAttempt.isSuccess : GeoAttempt → Bool
  | .success _ _ => true
  | .failure _ => false

/-- Observable outcome of one `requestGeolocation` run: the
`getCurrentPosition` calls made in order with their options, whether
`ipGeoGuess` was invoked, and the resolved boolean. -/
structure GeoRunOut where
  attempts : List PosOptions
  ipTried : Bool
  ok : Bool
deriving DecidableEq, Repr

/-- Embedding of `requestGeolocation` (`src/app/page.tsx` lines 610-680):
insecure context or missing geolocation API resolve false with no attempt;
the first attempt uses `firstOpts`; a first failure with code TIMEOUT or
POSITION_UNAVAILABLE triggers exactly one retry with `secondOpts` whose
failure handler is `finalFail`; any other first failure goes straight to
`finalFail`. `finalFail` tries `ipGeoGuess` before giving up, so `ipTried`
is set exactly on the `finalFail` paths, and the run resolves true iff a
device attempt succeeded or the IP fallback did (`ipResult`). -/
def requestGeolocation (secure hasGeo : Bool) (res1 res2 : GeoAttempt)
    (ipResult : Bool) : GeoRunOut :=
  if !secure then { attempts := [], ipTried := false, ok := false }
  else if !hasGeo then { attempts := [], ipTried := false, ok := false }
  else
    match res1 with
    | .success _ _ => { attempts := [firstOpts], ipTried := false, ok := true }
    | .failure code =>
        if code = .timedOut ∨ code = .positionUnavailable then
          match res2 with
          | .success _ _ => { attempts := [firstOpts, secondOpts], ipTried := false, ok := true }
          | .failure _ => { attempts := [firstOpts, secondOpts], ipTried := true, ok := ipResult }
        else
          { attempts := [firstOpts], ipTried := true, ok := ipResult }

/-- C5: when the first (low-accuracy, short-timeout) device attempt fails
with timeout or position-unavailable, exactly one retry is made, with the
high-accuracy, longer-timeout configuration, and the IP fallback runs iff
that retry also fails; a permission-denied first failure gets no retry. -/
theorem geo_retry_once (code : GeoErrCode) (res2 res2pd : GeoAttempt) (ip ippd : Bool)
    (hcode : code = GeoErrCode.timedOut ∨ code = GeoErrCode.positionUnavailable) :
    (requestGeolocation true true (GeoAttempt.failure code) res2 ip).attempts =
      [firstOpts, secondOpts] ∧
    secondOpts.enableHighAccuracy = true ∧
    firstOpts.enableHighAccuracy = false ∧
    firstOpts.timeoutMs < secondOpts.timeoutMs ∧
    (requestGeolocation true true (GeoAttempt.failure code) res2 ip).ipTried =
      !res2.isSuccess ∧
    (requestGeolocation true true
        (GeoAttempt.failure GeoErrCode.permissionDenied) res2pd ippd).attempts =
      [firstOpts] := by
  refine ⟨?_, rfl, rfl, by decide, ?_, ?_⟩
  · cases res2 <;> simp [requestGeolocation, hcode]
  · cases res2 with
    | success lat lon => simp [requestGeolocation, hcode, GeoAttempt.isSuccess]
    | failure c2 => simp [requestGeolocation, hcode, GeoAttempt.isSuccess]
  · simp [requestGeolocation]

/-- C5 witness: first attempt times out, high-accuracy retry also times
out, so the IP fallback is consulted. -/
theorem geo_retry_once_witness :
    (requestGeolocation true true (GeoAttempt.failure GeoErrCode.timedOut)
        (GeoAttempt.failure GeoErrCode.timedOut) false).attempts =
      [firstOpts, secondOpts] ∧
    secondOpts.enableHighAccuracy = true ∧
    firstOpts.enableHighAccuracy = false ∧
    firstOpts.timeoutMs < secondOpts.timeoutMs ∧
    (requestGeolocation true true (GeoAttempt.failure GeoErrCode.timedOut)
        (GeoAttempt.failure GeoErrCode.timedOut) false).ipTried =
      !(GeoAttempt.failure GeoErrCode.timedOut).isSuccess ∧
    (requestGeolocation true true
        (GeoAttempt.failure GeoErrCode.permissionDenied)
        (GeoAttempt.failure GeoErrCode.timedOut) false).attempts =
      [firstOpts] :=
  geo_retry_once GeoErrCode.timedOut (GeoAttempt.failure GeoErrCode.timedOut)
    (GeoAttempt.failure GeoErrCode.timedOut) false false (Or.inl rfl)


/- ===================================================================
   Forward search with region hint, src/app/page.tsx runSearch (claim C6)
   =================================================================== -/

/-- The `US_STATE_ABBR_TO_NAME` table (`src/app/page.tsx` lines 280-292). -/
def usStateAbbrToName : List (String × String) :=
  [ ("AL", "Alabama"), ("AK", "Alaska"), ("AZ", "Arizona"), ("AR", "Arkansas"),
    ("CA", "California"), ("CO", "Colorado"), ("CT", "Connecticut"), ("DE", "Delaware"),
    ("FL", "Florida"), ("GA", "Georgia"), ("HI", "Hawaii"), ("ID", "Idaho"),
    ("IL", "Illinois"), ("IN", "Indiana"), ("IA", "Iowa"), ("KS", "Kansas"),
    ("KY", "Kentucky"), ("LA", "Louisiana"), ("ME", "Maine"), ("MD", "Maryland"),
    ("MA", "Massachusetts"), ("MI", "Michigan"), ("MN", "Minnesota"), ("MS", "Mississippi"),
    ("MO", "Missouri"), ("MT", "Montana"), ("NE", "Nebraska"), ("NV", "Nevada"),
    ("NH", "New Hampshire"), ("NJ", "New Jersey"), ("NM", "New Mexico"), ("NY", "New York"),
    ("NC", "North Carolina"), ("ND", "North Dakota"), ("OH", "Ohio"), ("OK", "Oklahoma"),
    ("OR", "Oregon"), ("PA", "Pennsylvania"), ("RI", "Rhode Island"), ("SC", "South Carolina"),
    ("SD", "South Dakota"), ("TN", "Tennessee"), ("TX", "Texas"), ("UT", "Utah"),
    ("VT", "Vermont"), ("VA", "Virginia"), ("WA", "Washington"), ("WV", "West Virginia"),
    ("WI", "Wisconsin"), ("WY", "Wyoming"), ("DC", "District of Columbia"),
    ("PR", "Puerto Rico") ]

/-- ASCII lowercase of one character (the state names and abbreviations the
resolver compares are ASCII, so this matches JS `toLowerCase`). -/
def asciiLower (c : Char) : Char :=
  if 65 ≤ c.toNat ∧ c.toNat ≤ 90 then Char.ofNat (c.toNat + 32) else c

/-- ASCII uppercase of one character (JS `toUpperCase` on ASCII input). -/
def asciiUpper (c : Char) : Char :=
  if 97 ≤ c.toNat ∧ c.toNat ≤ 122 then Char.ofNat (c.toNat - 32) else c

/-- Whitespace as JS `trim` and `\s` treat the characters occurring here. -/
def isWsp (c : Char) : Bool :=
  c = ' ' ∨ c = '\t' ∨ c = '\n' ∨ c = '\r'

/-- JS `String.prototype.trim`: strip leading and trailing whitespace. -/
def trimStr (s : String) : String :=
  String.mk (((s.data.dropWhile isWsp).reverse.dropWhile isWsp).reverse)

/-- JS `toLowerCase` (ASCII). -/
def lowerStr (s : String) : String :=
  String.mk (s.data.map asciiLower)

/-- JS `toUpperCase` (ASCII). -/
def upperStr (s : String) : String :=
  String.mk (s.data.map asciiUpper)

/-- JS `replace(/\./g, "")`: drop every period. -/
def stripDots (s : String) : String :=
  String.mk (s.data.filter (fun c => c ≠ '.'))

/-- The `norm` helper (`src/app/page.tsx` lines 294-296): strip periods,
trim, lowercase. -/
def normStr (s : String) : String :=
  lowerStr (trimStr (stripDots s))

/-- Split a character list at every occurrence of `sep`. -/
def splitCharAux (sep : Char) : List Char → List (List Char)
  | [] => [[]]
  | x :: xs =>
      let r := splitCharAux sep xs
      if x = sep then [] :: r
      else
        match r with
        | [] => [[x]]
        | y :: ys => (x :: y) :: ys

/-- JS `split(sep)` for a one-character separator. -/
def splitStr (sep : Char) (s : String) : List String :=
  (splitCharAux sep s.data).map String.mk

/-- The query parsing at the top of `runSearch` (lines 519-537): text after
the first comma is the state hint (the city is the text before it);
otherwise, when the last whitespace-separated token resolves to a state, it
is the hint and the remaining tokens are the city. `split(/\s+/)` is
modelled as splitting on spaces and dropping empty runs. Returns
(city, desired state). -/
def resolveStateName (input : String) : Option String :=
  if input = "" then none
  else
    match usStateAbbrToName.lookup (upperStr (trimStr input)) with
    | some full => some full
    | none =>
        match (usStateAbbrToName.map Prod.snd).find?
            (fun n => normStr n == normStr input) with
        | some full => some full
        | none => none

/-- Query parsing of `runSearch`; see `resolveStateName` for the state
table lookup. -/
def parseQuery (raw : String) : String × Option String :=
  match splitStr ',' raw with
  | city :: restHead :: restTail =>
      (trimStr city,
        resolveStateName (trimStr (String.intercalate "," (restHead :: restTail))))
  | _ =>
      match (splitStr ' ' raw).filter (fun s => s ≠ "") with
      | p1 :: p2 :: ps =>
          let parts := p1 :: p2 :: ps
          match resolveStateName (parts.getLastD "") with
          | some resolved => (String.intercalate " " parts.dropLast, some resolved)
          | none => (raw, none)
      | _ => (raw, none)

/-- A forward-geocoding candidate as `runSearch` consumes it. -/
structure GeoResult where
  name : String
  latitude : Int
  longitude : Int
  country_code : Option String
  country : Option String
  admin1 : Option String
  population : Option Int
deriving DecidableEq, Repr

/-- `(r.population ?? 0)`, the sort key of `runSearch`. -/
def popOf (r : GeoResult) : Int :=
  r.population.getD 0

/-- Head of the stable descending sort by population
(`.sort((a, b) => (b.population ?? 0) - (a.population ?? 0))[0]`): the
earliest element attaining the maximal population. -/
def pickTop : List GeoResult → Option GeoResult
  | [] => none
  | r :: rs =>
      match pickTop rs with
      | none => some r
      | some b => if popOf b > popOf r then some b else some r

/-- `results.filter((r) => r.country_code === "US")`. -/
def usOnly (results : List GeoResult) : List GeoResult :=
  results.filter (fun r => r.country_code == some "US")

/-- `us.length ? us : results`: the candidate pool. -/
def usPool (results : List GeoResult) : List GeoResult :=
  if usOnly results ≠ [] then usOnly results else results

/-- `pool.filter((r) => norm(r.admin1 || "") === norm(desiredState))`. -/
def stateMatches (st : String) (results : List GeoResult) : List GeoResult :=
  (usPool results).filter (fun r => normStr (r.admin1.getD "") == normStr st)

/-- Outcome of the candidate selection in `runSearch`. -/
inductive SearchOutcome where
  | noMatches
  | noneInState (city state : String)
  | picked (r : GeoResult)
deriving DecidableEq, Repr

/-- Embedding of the selection logic of `runSearch` (lines 511-584, network
plumbing elided): empty results report "no matches"; with a state hint,
pick the most populous candidate whose admin1 `norm`-matches the hint
inside the US-preferred pool, or report "none in state"; without a hint,
pick the most populous candidate of the pool. -/
def searchPick (raw : String) (results : List GeoResult) : SearchOutcome :=
  let parsed := parseQuery raw
  if results = [] then .noMatches
  else
    match parsed.2 with
    | some st =>
        match pickTop (stateMatches st results) with
        | some p => .picked p
        | none => .noneInState parsed.1 st
    | none =>
        match pickTop (usPool results) with
        | some p => .picked p
        | none => .noMatches

theorem pickTop_mem : ∀ {l : List GeoResult} {p : GeoResult},
    pickTop l = some p → p ∈ l := by
  intro l
  induction l with
  | nil =>
      intro p h
      simp [pickTop] at h
  | cons r rs ih =>
      intro p h
      cases hrs : pickTop rs with
      | none =>
          simp only [pickTop, hrs] at h
          have : r = p := by injection h
          simp [← this]
      | some b =>
          simp only [pickTop, hrs] at h
          by_cases hgt : popOf b > popOf r
          · rw [if_pos hgt] at h
            have hb : b = p := by injection h
            subst hb
            exact List.mem_cons_of_mem _ (ih hrs)
          · rw [if_neg hgt] at h
            have : r = p := by injection h
            simp [← this]

theorem pickTop_cons_isSome (r : GeoResult) (rs : List GeoResult) :
    (pickTop (r :: rs)).isSome := by
  rw [pickTop]
  cases pickTop rs with
  | none => rfl
  | some b => by_cases h : popOf b > popOf r <;> simp [h]

theorem pickTop_max : ∀ {l : List GeoResult} {p : GeoResult},
    pickTop l = some p → ∀ q ∈ l, popOf q ≤ popOf p := by
  intro l
  induction l with
  | nil =>
      intro p h
      simp [pickTop] at h
  | cons r rs ih =>
      intro p h q hq
      cases hrs : pickTop rs with
      | none =>
          simp only [pickTop, hrs] at h
          have hrp : r = p := by injection h
          have hnil : rs = [] := by
            cases rs with
            | nil => rfl
            | cons x xs =>
                have hsome := pickTop_cons_isSome x xs
                rw [hrs] at hsome
                exact absurd hsome (by simp)
          rw [hnil] at hq
          have : q = r := by simpa using hq
          rw [this, hrp]
      | some b =>
          simp only [pickTop, hrs] at h
          rcases List.mem_cons.mp hq with hqr | hqrs
          · subst hqr
            by_cases hgt : popOf b > popOf q
            · rw [if_pos hgt] at h
              have : b = p := by injection h
              rw [← this]
              exact le_of_lt hgt
            · rw [if_neg hgt] at h
              have : q = p := by injection h
              rw [← this]
          · have hqb : popOf q ≤ popOf b := ih hrs q hqrs
            by_cases hgt : popOf b > popOf r
            · rw [if_pos hgt] at h
              have : b = p := by injection h
              rw [← this]
              exact hqb
            · rw [if_neg hgt] at h
              have : r = p := by injection h
              rw [← this]
              exact le_trans hqb (not_lt.mp hgt)

/-- C6: when the query carries a region hint that parses to a state, and
the raw candidate set contains a US candidate whose admin-region matches
that state, the resolver picks a candidate from the state-matching pool —
never a same-named candidate in a different state — and picks one of
maximal population among the matching ones. -/
theorem region_hint_preferred (raw city st : String) (results : List GeoResult)
    (r : GeoResult)
    (hparse : parseQuery raw = (city, some st))
    (hrmem : r ∈ results) (hrus : r.country_code = some "US")
    (hrmatch : normStr (r.admin1.getD "") = normStr st) :
    ∃ p, searchPick raw results = SearchOutcome.picked p ∧
      p ∈ stateMatches st results ∧
      normStr (p.admin1.getD "") = normStr st ∧
      ∀ q ∈ stateMatches st results, popOf q ≤ popOf p := by
  have hus : r ∈ usOnly results := by
    rw [usOnly]
    exact List.mem_filter.mpr ⟨hrmem, by simp [hrus]⟩
  have husne : usOnly results ≠ [] := by
    intro hc
    rw [hc] at hus
    exact absurd hus (List.not_mem_nil r)
  have hpool : usPool results = usOnly results := by
    simp [usPool, husne]
  have hrsm : r ∈ stateMatches st results := by
    rw [stateMatches, hpool]
    exact List.mem_filter.mpr ⟨hus, by simp [hrmatch]⟩
  have hne : stateMatches st results ≠ [] := by
    intro hc
    rw [hc] at hrsm
    exact absurd hrsm (List.not_mem_nil r)
  have hsome : (pickTop (stateMatches st results)).isSome := by
    cases hsm : stateMatches st results with
    | nil => exact absurd hsm hne
    | cons a as => exact pickTop_cons_isSome a as
  obtain ⟨p, hp⟩ := Option.isSome_iff_exists.mp hsome
  have hpmem := pickTop_mem hp
  have hpmatch : normStr (p.admin1.getD "") = normStr st := by
    rw [stateMatches] at hpmem
    have := (List.mem_filter.mp hpmem).2
    simpa using this
  refine ⟨p, ?_, pickTop_mem hp, hpmatch, pickTop_max hp⟩
  have hresne : results ≠ [] := by
    intro hc
    rw [hc] at hrmem
    exact absurd hrmem (List.not_mem_nil r)
  simp [searchPick, hparse, hresne, hp]

/-- Huntsville, Alabama, as the forward geocoder ranks it. -/
def demoHuntsvilleAL : GeoResult :=
  { name := "Huntsville", latitude := 347304, longitude := -865861,
    country_code := some "US", country := some "United States",
    admin1 := some "Alabama", population := some 215006 }

/-- Huntsville, Texas: same name, different state, lower population. -/
def demoHuntsvilleTX : GeoResult :=
  { name := "Huntsville", latitude := 307239, longitude := -955519,
    country_code := some "US", country := some "United States",
    admin1 := some "Texas", population := some 45941 }

/-- C6 witness: searching "Huntsville, AL" against a candidate set holding
both Huntsville/Alabama and Huntsville/Texas picks from the
Alabama-matching pool. -/
theorem region_hint_preferred_witness :
    ∃ p, searchPick "Huntsville, AL" [demoHuntsvilleTX, demoHuntsvilleAL] =
        SearchOutcome.picked p ∧
      p ∈ stateMatches "Alabama" [demoHuntsvilleTX, demoHuntsvilleAL] ∧
      normStr (p.admin1.getD "") = normStr "Alabama" ∧
      ∀ q ∈ stateMatches "Alabama" [demoHuntsvilleTX, demoHuntsvilleAL],
        popOf q ≤ popOf p :=
  region_hint_preferred "Huntsville, AL" "Huntsville" "Alabama"
    [demoHuntsvilleTX, demoHuntsvilleAL] demoHuntsvilleAL
    (by decide) (by decide) (by decide) (by decide)

/- ===================================================================
   Cached weather helper, src/lib/openWeather.ts (claims C9, C10)
   =================================================================== -/

/-- One cache slot: payload plus absolute expiry time (ms). -/
structure OwEntry (α : Type) where
  data : α
  expires : Int
deriving DecidableEq, Repr

/-- Coordinates from the geocoding phase. -/
structure GeoCoords where
  lat : Int
  lon : Int
deriving DecidableEq, Repr

/-- The module-level caches (`src/lib/openWeather.ts` lines 16-17),
modelled as insertion-ordered association lists like the JS `Map`s. The
forecast payload is the raw JSON body, kept opaque as a `String`. -/
structure OwState where
  geocodeCache : List (String × OwEntry GeoCoords)
  forecastCache : List (String × OwEntry String)
deriving DecidableEq, Repr

/-- `TEN_MINUTES` (line 8). -/
def tenMinutesMs : Int := 10 * 60 * 1000

/-- `getCacheEntry` (lines 19-26): an unexpired entry is returned and the
cache untouched; otherwise the key is deleted (a no-op when absent) and
`undefined` returned. Returns (result, updated cache). -/
def getCacheEntry {α : Type} (cache : List (String × OwEntry α)) (key : String)
    (now : Int) : Option α × List (String × OwEntry α) :=
  match cache.lookup key with
  | some entry =>
      if now < entry.expires then (some entry.data, cache)
      else (none, cache.filter (fun kv => kv.1 ≠ key))
  | none => (none, cache.filter (fun kv => kv.1 ≠ key))

/-- The result component of `getCacheEntry`. -/
def cacheHit {α : Type} (cache : List (String × OwEntry α)) (key : String)
    (now : Int) : Option α :=
  (getCacheEntry cache key now).1

/-- JS `Map.set`: overwrite in place, or append a fresh binding. -/
def setEntry {α : Type} (cache : List (String × OwEntry α)) (key : String)
    (e : OwEntry α) : List (String × OwEntry α) :=
  if (cache.lookup key).isSome then
    cache.map (fun kv => if kv.1 = key then (key, e) else kv)
  else cache ++ [(key, e)]

/-- `validUnits` (`src/lib/openWeather.ts` line 5). -/
def owValidUnits : List String := ["metric", "imperial", "standard"]

/-- `const unit = searchParams.get('unit') || 'imperial'`. -/
def owUnitOf (unitQ : Option String) : String :=
  match unitQ with
  | some u => if u = "" then "imperial" else u
  | none => "imperial"

/-- `const validatedUnit = validUnits.includes(unit) ? unit : 'imperial'`
(line 47). -/
def validatedUnitOf (unitQ : Option String) : String :=
  if owUnitOf unitQ ∈ owValidUnits then owUnitOf unitQ else "imperial"

/-- The forecast cache key (line 49):
`${endpoint}:${city.toLowerCase()}:${validatedUnit}`. -/
def owForecastKey (endpoint city : String) (unitQ : Option String) : String :=
  endpoint ++ ":" ++ lowerStr city ++ ":" ++ validatedUnitOf unitQ

/-- A settled upstream response (ok flag, HTTP status, parsed body) or a
thrown exception (network failure, 5s timeout, JSON parse failure). -/
inductive UpstreamEv (α : Type) where
  | resp (ok : Bool) (status : Nat) (body : α)
  | raise (msg : String)
deriving DecidableEq, Repr

/-- Responses of the helper: `payload` is `NextResponse.json(data)` for a
cached or fresh weather payload; `message` is an error JSON (the upstream
`data.message` passthrough is abstracted into the fixed fallback text). -/
inductive OwResponse where
  | payload (status : Nat) (body : String)
  | message (status : Nat) (msg : String)
deriving DecidableEq, Repr

/-- Whether a response is a weather payload rather than an error JSON. -/
def OwResponse.isPayload : OwResponse → Bool
  | .payload _ _ => true
  | .message _ _ => false

/-- Which upstream calls a run made, and the `units=` value carried by the
weather URL when that call happened. -/
structure OwCalls where
  geoCalled : Bool
  weatherCalled : Bool
  weatherUnitsParam : Option String
deriving DecidableEq, Repr

/-- A run's response, the caches after it, and its upstream calls. -/
structure OwResult where
  response : OwResponse
  state : OwState
  calls : OwCalls
deriving DecidableEq, Repr

/-- The weather-fetch tail of `openWeather` (lines 82-101): build the URL
with `units=validatedUnit`, fetch; on ok, store under the forecast key with
a ten-minute expiry and return the payload; on non-ok status or exception,
return the error without storing anything. -/
def owWeatherPhase (endpoint validatedUnit forecastKey : String) (now : Int)
    (st : OwState) (geoCalled : Bool) (wEv : UpstreamEv String) : OwResult :=
  match wEv with
  | .raise _ =>
      { response := .message 500 ("Failed to fetch " ++ endpoint ++ " data"),
        state := st,
        calls := { geoCalled := geoCalled, weatherCalled := true,
                   weatherUnitsParam := some validatedUnit } }
  | .resp ok status data =>
      if ok then
        let stored := setEntry st.forecastCache forecastKey
          { data := data, expires := now + tenMinutesMs }
        { response := .payload 200 data,
          state := { st with forecastCache := stored },
          calls := { geoCalled := geoCalled, weatherCalled := true,
                     weatherUnitsParam := some validatedUnit } }
      else
        { response := .message status ("Error fetching " ++ endpoint ++ " data"),
          state := st,
          calls := { geoCalled := geoCalled, weatherCalled := true,
                     weatherUnitsParam := some validatedUnit } }

/-- Embedding of `openWeather` (`src/lib/openWeather.ts` lines 33-102):
guards for city and API key; unit validation with silent fallback to
imperial; forecast-cache probe; geocode (cached, or fetched and cached on
success); then the weather phase. The two upstream outcomes are passed in
as explicit events. -/
def openWeather (endpoint : String) (cityQ unitQ apiKey : Option String) (now : Int)
    (st : OwState) (geoEv : UpstreamEv (List GeoCoords)) (wEv : UpstreamEv String) :
    OwResult :=
  let noCalls : OwCalls :=
    { geoCalled := false, weatherCalled := false, weatherUnitsParam := none }
  if cityQ.getD "" = "" then
    { response := .message 400 "City is required", state := st, calls := noCalls }
  else if apiKey.getD "" = "" then
    { response := .message 500 "API key not configured", state := st, calls := noCalls }
  else
    let city := cityQ.getD ""
    let validatedUnit := validatedUnitOf unitQ
    let forecastKey := owForecastKey endpoint city unitQ
    let fcProbe := getCacheEntry st.forecastCache forecastKey now
    match fcProbe.1 with
    | some cached =>
        { response := .payload 200 cached,
          state := { st with forecastCache := fcProbe.2 },
          calls := noCalls }
    | none =>
        let geoKey := lowerStr city
        let gcProbe := getCacheEntry st.geocodeCache geoKey now
        let st1 : OwState := { geocodeCache := gcProbe.2, forecastCache := fcProbe.2 }
        match gcProbe.1 with
        | some _ => owWeatherPhase endpoint validatedUnit forecastKey now st1 false wEv
        | none =>
            match geoEv with
            | .raise _ =>
                { response := .message 500 "Failed to geocode city",
                  state := st1,
                  calls := { geoCalled := true, weatherCalled := false,
                             weatherUnitsParam := none } }
            | .resp ok status body =>
                if ok then
                  match body with
                  | [] =>
                      { response := .message 404 "City not found",
                        state := st1,
                        calls := { geoCalled := true, weatherCalled := false,
                                   weatherUnitsParam := none } }
                  | c :: _ =>
                      let storedGeo := setEntry st1.geocodeCache geoKey
                        { data := c, expires := now + tenMinutesMs }
                      let st2 : OwState := { st1 with geocodeCache := storedGeo }
                      owWeatherPhase endpoint validatedUnit forecastKey now st2 true wEv
                else
                  { response := .message status "City not found",
                    state := st1,
                    calls := { geoCalled := true, weatherCalled := false,
                               weatherUnitsParam := none } }

/-- Whether an upstream event is an error outcome (thrown exception or
non-success HTTP status). -/
def UpstreamEv.isError {α : Type} : UpstreamEv α → Bool
  | .resp ok _ _ => !ok
  | .raise _ => true

theorem lookup_filter_ne {α : Type} (cache : List (String × OwEntry α)) (key : String) :
    (cache.filter (fun kv => kv.1 ≠ key)).lookup key = none := by
  induction cache with
  | nil => rfl
  | cons kv rest ih =>
      by_cases h : kv.1 = key
      · simp only [List.filter_cons, h]
        simpa using ih
      · have hb : (key == kv.1) = false := by
          rw [beq_eq_false_iff_ne]
          exact fun hc => h hc.symm
        simp only [List.filter_cons]
        rw [if_pos (by simpa using h)]
        simpa [List.lookup, hb] using ih

theorem getCacheEntry_none_lookup {α : Type} (cache : List (String × OwEntry α))
    (key : String) (now : Int) (h : cacheHit cache key now = none) :
    ((getCacheEntry cache key now).2).lookup key = none := by
  rw [cacheHit] at h
  cases hl : cache.lookup key with
  | none =>
      simp only [getCacheEntry, hl]
      exact lookup_filter_ne cache key
  | some entry =>
      simp only [getCacheEntry, hl] at h ⊢
      by_cases hexp : now < entry.expires
      · rw [if_pos hexp] at h
        simp at h
      · rw [if_neg hexp]
        exact lookup_filter_ne cache key

theorem getCacheEntry_hit_frozen {α : Type} (cache : List (String × OwEntry α))
    (key : String) (now : Int) (d : α) (h : cacheHit cache key now = some d) :
    (getCacheEntry cache key now).2 = cache := by
  rw [cacheHit] at h
  cases hl : cache.lookup key with
  | none =>
      simp only [getCacheEntry, hl] at h
      exact absurd h (by simp)
  | some entry =>
      simp only [getCacheEntry, hl] at h ⊢
      by_cases hexp : now < entry.expires
      · rw [if_pos hexp]
      · rw [if_neg hexp] at h
        simp at h

theorem lookup_setEntry {α : Type} (cache : List (String × OwEntry α)) (key : String)
    (e : OwEntry α) : (setEntry cache key e).lookup key = some e := by
  rw [setEntry]
  by_cases h : (cache.lookup key).isSome
  · rw [if_pos h]
    induction cache with
    | nil => simp [List.lookup] at h
    | cons kv rest ih =>
        by_cases hk : kv.1 = key
        · have hkv : (if kv.1 = key then (key, e) else kv) = (key, e) := if_pos hk
          simp only [List.map_cons, hkv]
          simp [List.lookup]
        · have hb : (key == kv.1) = false := by
            rw [beq_eq_false_iff_ne]
            exact fun hc => hk hc.symm
          have hrest : (rest.lookup key).isSome := by
            simpa [List.lookup, hb] using h
          have hkv : (if kv.1 = key then (key, e) else kv) = kv := if_neg hk
          simp only [List.map_cons, hkv]
          simp only [List.lookup, hb]
          exact ih hrest
  · rw [if_neg h]
    induction cache with
    | nil => simp [List.lookup]
    | cons kv rest ih =>
        have hk : ¬kv.1 = key := by
          intro hc
          apply h
          simp [List.lookup, hc.symm]
        have hb : (key == kv.1) = false := by
          rw [beq_eq_false_iff_ne]
          exact fun hc => hk hc.symm
        have hrest : ¬(rest.lookup key).isSome := by
          intro hc
          apply h
          simpa [List.lookup, hb] using hc
        simp only [List.cons_append, List.lookup, hb]
        exact ih hrest

theorem cacheHit_setEntry {α : Type} (cache : List (String × OwEntry α)) (key : String)
    (d : α) (exp now : Int) (h : now < exp) :
    cacheHit (setEntry cache key { data := d, expires := exp }) key now = some d := by
  rw [cacheHit, getCacheEntry, lookup_setEntry]
  simp [h]

theorem openWeather_miss_success (endpoint city apiKey wData : String)
    (unitQ : Option String) (now : Int) (st : OwState)
    (c0 : GeoCoords) (geoRest : List GeoCoords)
    (hcity : city ≠ "") (hkey : apiKey ≠ "")
    (hmiss : cacheHit st.forecastCache (owForecastKey endpoint city unitQ) now = none) :
    (openWeather endpoint (some city) unitQ (some apiKey) now st
        (UpstreamEv.resp true 200 (c0 :: geoRest)) (UpstreamEv.resp true 200 wData)).response =
      OwResponse.payload 200 wData ∧
    (openWeather endpoint (some city) unitQ (some apiKey) now st
        (UpstreamEv.resp true 200 (c0 :: geoRest)) (UpstreamEv.resp true 200 wData)).calls.weatherCalled = true ∧
    (openWeather endpoint (some city) unitQ (some apiKey) now st
        (UpstreamEv.resp true 200 (c0 :: geoRest)) (UpstreamEv.resp true 200 wData)).calls.weatherUnitsParam =
      some (validatedUnitOf unitQ) ∧
    (openWeather endpoint (some city) unitQ (some apiKey) now st
        (UpstreamEv.resp true 200 (c0 :: geoRest)) (UpstreamEv.resp true 200 wData)).state.forecastCache =
      setEntry (getCacheEntry st.forecastCache (owForecastKey endpoint city unitQ) now).2
        (owForecastKey endpoint city unitQ) { data := wData, expires := now + tenMinutesMs } := by
  rw [cacheHit] at hmiss
  cases hgc : (getCacheEntry st.geocodeCache (lowerStr city) now).1 with
  | some c => simp [openWeather, hcity, hkey, hmiss, hgc, owWeatherPhase]
  | none => simp [openWeather, hcity, hkey, hmiss, hgc, owWeatherPhase]

theorem openWeather_miss_error (endpoint city apiKey : String)
    (unitQ : Option String) (now : Int) (st : OwState)
    (c0 : GeoCoords) (geoRest : List GeoCoords) (wEvBad : UpstreamEv String)
    (hcity : city ≠ "") (hkey : apiKey ≠ "")
    (hmiss : cacheHit st.forecastCache (owForecastKey endpoint city unitQ) now = none)
    (hbad : wEvBad.isError = true) :
    (openWeather endpoint (some city) unitQ (some apiKey) now st
        (UpstreamEv.resp true 200 (c0 :: geoRest)) wEvBad).response.isPayload = false ∧
    (openWeather endpoint (some city) unitQ (some apiKey) now st
        (UpstreamEv.resp true 200 (c0 :: geoRest)) wEvBad).state.forecastCache =
      (getCacheEntry st.forecastCache (owForecastKey endpoint city unitQ) now).2 := by
  rw [cacheHit] at hmiss
  cases wEvBad with
  | raise m =>
      cases hgc : (getCacheEntry st.geocodeCache (lowerStr city) now).1 with
      | some c =>
          simp [openWeather, hcity, hkey, hmiss, hgc, owWeatherPhase, OwResponse.isPayload]
      | none =>
          simp [openWeather, hcity, hkey, hmiss, hgc, owWeatherPhase, OwResponse.isPayload]
  | resp ok status body =>
      cases ok with
      | true => simp [UpstreamEv.isError] at hbad
      | false =>
          cases hgc : (getCacheEntry st.geocodeCache (lowerStr city) now).1 with
          | some c =>
              simp [openWeather, hcity, hkey, hmiss, hgc, owWeatherPhase, OwResponse.isPayload]
          | none =>
              simp [openWeather, hcity, hkey, hmiss, hgc, owWeatherPhase, OwResponse.isPayload]

/-- C9: for the cached weather helper, (a) a request that misses the cache
performs the full upstream fetch and stores a successful result, under the
(endpoint, city, unit) key, before returning it; (b) a second request with
the same key within the 10-minute TTL is answered from the in-memory cache
with no geocode or weather upstream call and unchanged state; (c) an
upstream error (non-success status or thrown fetch) yields an error
response and stores nothing under the key. -/
theorem cache_ttl_roundtrip (endpoint city apiKey wData : String)
    (unitQ : Option String) (now1 now2 : Int) (st : OwState)
    (c0 : GeoCoords) (geoRest : List GeoCoords)
    (geoEv2 : UpstreamEv (List GeoCoords)) (wEv2 : UpstreamEv String)
    (wEvBad : UpstreamEv String)
    (hcity : city ≠ "") (hkey : apiKey ≠ "")
    (hmiss : cacheHit st.forecastCache (owForecastKey endpoint city unitQ) now1 = none)
    (httl : now2 < now1 + tenMinutesMs)
    (hbad : wEvBad.isError = true) :
    (let r1 := openWeather endpoint (some city) unitQ (some apiKey) now1 st
        (UpstreamEv.resp true 200 (c0 :: geoRest)) (UpstreamEv.resp true 200 wData)
     let r2 := openWeather endpoint (some city) unitQ (some apiKey) now2 r1.state geoEv2 wEv2
     let rb := openWeather endpoint (some city) unitQ (some apiKey) now1 st
        (UpstreamEv.resp true 200 (c0 :: geoRest)) wEvBad
     (r1.calls.weatherCalled = true ∧
      r1.response = OwResponse.payload 200 wData ∧
      cacheHit r1.state.forecastCache (owForecastKey endpoint city unitQ) now2 = some wData) ∧
     (r2.response = OwResponse.payload 200 wData ∧
      r2.calls.geoCalled = false ∧
      r2.calls.weatherCalled = false ∧
      r2.state = r1.state) ∧
     (rb.response.isPayload = false ∧
      rb.state.forecastCache.lookup (owForecastKey endpoint city unitQ) = none)) := by
  obtain ⟨hresp1, hcall1, hunits1, hstate1⟩ :=
    openWeather_miss_success endpoint city apiKey wData unitQ now1 st c0 geoRest
      hcity hkey hmiss
  obtain ⟨hbadresp, hbadstate⟩ :=
    openWeather_miss_error endpoint city apiKey unitQ now1 st c0 geoRest wEvBad
      hcity hkey hmiss hbad
  have hhit2 : cacheHit
      (openWeather endpoint (some city) unitQ (some apiKey) now1 st
        (UpstreamEv.resp true 200 (c0 :: geoRest))
        (UpstreamEv.resp true 200 wData)).state.forecastCache
      (owForecastKey endpoint city unitQ) now2 = some wData := by
    rw [hstate1]
    exact cacheHit_setEntry _ _ _ _ _ httl
  refine ⟨⟨hcall1, hresp1, hhit2⟩, ?_, ⟨hbadresp, ?_⟩⟩
  · -- the second call: served from the cache
    have hfrozen := getCacheEntry_hit_frozen _ _ _ _ hhit2
    rw [cacheHit] at hhit2
    generalize hs1 : (openWeather endpoint (some city) unitQ (some apiKey) now1 st
        (UpstreamEv.resp true 200 (c0 :: geoRest))
        (UpstreamEv.resp true 200 wData)).state = s1 at hhit2 hfrozen ⊢
    refine ⟨?_, ?_, ?_, ?_⟩ <;>
      simp [openWeather, hcity, hkey, hhit2, hfrozen]
  · rw [hbadstate]
    exact getCacheEntry_none_lookup _ _ _ hmiss

/-- C9 witness: a first imperial request for Huntsville at time 0 stores
the payload; a repeat at five minutes is served from memory with no
upstream calls; a 502 upstream leaves the cache without the key. -/
theorem cache_ttl_roundtrip_witness :
    (let r1 := openWeather "weather" (some "Huntsville") (some "imperial") (some "key0") 0
        (OwState.mk [] []) (UpstreamEv.resp true 200 [GeoCoords.mk 34 (-86)])
        (UpstreamEv.resp true 200 "payload0")
     let r2 := openWeather "weather" (some "Huntsville") (some "imperial") (some "key0") 300000
        r1.state (UpstreamEv.raise "offline") (UpstreamEv.raise "offline")
     let rb := openWeather "weather" (some "Huntsville") (some "imperial") (some "key0") 0
        (OwState.mk [] []) (UpstreamEv.resp true 200 [GeoCoords.mk 34 (-86)])
        (UpstreamEv.resp false 502 "bad gateway")
     (r1.calls.weatherCalled = true ∧
      r1.response = OwResponse.payload 200 "payload0" ∧
      cacheHit r1.state.forecastCache (owForecastKey "weather" "Huntsville" (some "imperial"))
        300000 = some "payload0") ∧
     (r2.response = OwResponse.payload 200 "payload0" ∧
      r2.calls.geoCalled = false ∧
      r2.calls.weatherCalled = false ∧
      r2.state = r1.state) ∧
     (rb.response.isPayload = false ∧
      rb.state.forecastCache.lookup (owForecastKey "weather" "Huntsville" (some "imperial")) =
        none)) :=
  cache_ttl_roundtrip "weather" "Huntsville" "key0" "payload0" (some "imperial") 0 300000
    (OwState.mk [] []) (GeoCoords.mk 34 (-86)) [] (UpstreamEv.raise "offline")
    (UpstreamEv.raise "offline") (UpstreamEv.resp false 502 "bad gateway")
    (by decide) (by decide) (by decide) (by decide) (by decide)

/-- C10: a unit query parameter outside {metric, imperial, standard} is not
rejected: the helper silently substitutes imperial — the validated unit is
imperial, the cache key ends in ":imperial", the upstream URL carries
units=imperial — and the fetch proceeds, its successful result stored under
that key. -/
theorem invalid_unit_falls_back_to_imperial (endpoint city apiKey unit wData : String)
    (now : Int) (st : OwState) (c0 : GeoCoords) (geoRest : List GeoCoords)
    (hcity : city ≠ "") (hkey : apiKey ≠ "")
    (hne : unit ≠ "") (hunit : unit ∉ owValidUnits)
    (hmiss : cacheHit st.forecastCache (owForecastKey endpoint city (some unit)) now = none) :
    validatedUnitOf (some unit) = "imperial" ∧
    owForecastKey endpoint city (some unit) =
      endpoint ++ ":" ++ lowerStr city ++ ":" ++ "imperial" ∧
    (let r := openWeather endpoint (some city) (some unit) (some apiKey) now st
        (UpstreamEv.resp true 200 (c0 :: geoRest)) (UpstreamEv.resp true 200 wData)
     r.response = OwResponse.payload 200 wData ∧
     r.calls.weatherCalled = true ∧
     r.calls.weatherUnitsParam = some "imperial" ∧
     r.state.forecastCache.lookup (owForecastKey endpoint city (some unit)) =
       some { data := wData, expires := now + tenMinutesMs }) := by
  have hval : validatedUnitOf (some unit) = "imperial" := by
    simp [validatedUnitOf, owUnitOf, hne, hunit]
  obtain ⟨hresp, hcall, hunits, hstate⟩ :=
    openWeather_miss_success endpoint city apiKey wData (some unit) now st c0 geoRest
      hcity hkey hmiss
  refine ⟨hval, by rw [owForecastKey, hval], hresp, hcall, by rw [hunits, hval], ?_⟩
  rw [hstate]
  exact lookup_setEntry _ _ _

/-- C10 witness: unit "kelvin" is silently replaced by imperial and the
fetch proceeds and is cached under the imperial key. -/
theorem invalid_unit_falls_back_to_imperial_witness :
    validatedUnitOf (some "kelvin") = "imperial" ∧
    owForecastKey "weather" "Huntsville" (some "kelvin") =
      "weather" ++ ":" ++ lowerStr "Huntsville" ++ ":" ++ "imperial" ∧
    (let r := openWeather "weather" (some "Huntsville") (some "kelvin") (some "key0") 0
        (OwState.mk [] []) (UpstreamEv.resp true 200 [GeoCoords.mk 34 (-86)])
        (UpstreamEv.resp true 200 "payload0")
     r.response = OwResponse.payload 200 "payload0" ∧
     r.calls.weatherCalled = true ∧
     r.calls.weatherUnitsParam = some "imperial" ∧
     r.state.forecastCache.lookup (owForecastKey "weather" "Huntsville" (some "kelvin")) =
       some { data := "payload0", expires := 0 + tenMinutesMs }) :=
  invalid_unit_falls_back_to_imperial "weather" "Huntsville" "key0" "kelvin" "payload0" 0
    (OwState.mk [] []) (GeoCoords.mk 34 (-86)) []
    (by decide) (by decide) (by decide) (by decide) (by decide)
